import Mathlib

/-!
Verification of the polyrust decision core against its specification.

The Rust sources are shallowly embedded: `f64` prices, percentages and
dollar amounts become `ℚ`; `Instant` timestamps become `ℚ` seconds with
an explicit `now` argument wherever the Rust code calls a clock; `u8`
results of `as u8` casts become `ℕ` through an explicit saturating floor;
fallible paths become `Option`. Per-asset `match` dispatch is kept as in
the source. Logging side effects (`println!`) are dropped; they do not
affect any return value.
-/

namespace Polyrust

/-- Crypto asset enumeration (`CryptoAsset` in `crypto_arb.rs`). -/
inductive CryptoAsset where
  | BTC
  | ETH
  | SOL
  | XRP
deriving DecidableEq, Repr

/-- Momentum direction (`MomentumDirection` in `crypto_arb.rs`). -/
inductive MomentumDirection where
  | Up
  | Down
  | Neutral
deriving DecidableEq, Repr

/-- Momentum analysis result (`MomentumSignal` in `crypto_arb.rs`). -/
structure MomentumSignal where
  score : ℚ
  is_accelerating : Bool
  consistency : ℚ
  direction : MomentumDirection
deriving DecidableEq, Repr

/-- `MomentumSignal::default()`: zero, not accelerating, neutral. -/
def momentumSignalDefault : MomentumSignal :=
  { score := 0, is_accelerating := false, consistency := 0,
    direction := MomentumDirection.Neutral }

/-- `MomentumSignal::is_strong`: `score.abs() > 0.3 && consistency > 0.6`. -/
def MomentumSignal.is_strong (m : MomentumSignal) : Bool :=
  decide (0.3 < |m.score|) && decide (0.6 < m.consistency)

/-- `MomentumSignal::supports_direction`. -/
def MomentumSignal.supports_direction (m : MomentumSignal) (is_up : Bool) : Bool :=
  match m.direction with
  | MomentumDirection.Up => is_up
  | MomentumDirection.Down => !is_up
  | MomentumDirection.Neutral => false

/-- `f64::clamp(x, lo, hi)`: `lo` if `x < lo`, `hi` if `x > hi`, else `x`. -/
def ratClamp (x lo hi : ℚ) : ℚ := min (max x lo) hi

/-- Rust `as u8` cast of a nonnegative float: truncate toward zero and
saturate into `0..=255`. -/
def f64ToU8 (x : ℚ) : ℕ := min ⌊x⌋.toNat 255

/-- The per-step percentage changes computed by the loop in
`PriceState::momentum` (`crypto_arb.rs` lines 256-264): for each pair of
consecutive samples, push `((curr - prev) / prev) * 100` when `prev > 0`. -/
def stepChanges : List ℚ → List ℚ
  | [] => []
  | [_] => []
  | p1 :: p2 :: rest =>
      (if 0 < p1 then [(p2 - p1) / p1 * 100] else []) ++ stepChanges (p2 :: rest)

/-- Mean of the per-step percentage changes of a price history
(`avg_change` in `PriceState::momentum`). -/
def meanStepChange (history : List (ℚ × ℚ)) : ℚ :=
  (stepChanges (history.map Prod.fst)).sum /
    ((stepChanges (history.map Prod.fst)).length : ℚ)

/-- `PriceState::momentum` computed on one price history (a list of
`(price, timestamp)` samples, newest last); the source selects the history
by asset and then runs exactly this computation. -/
def momentumOfHistory (history : List (ℚ × ℚ)) : MomentumSignal :=
  if history.length < 3 then momentumSignalDefault
  else
    let changes := stepChanges (history.map Prod.fst)
    if changes.isEmpty then momentumSignalDefault
    else
      let avg_change := changes.sum / (changes.length : ℚ)
      let mid := changes.length / 2
      let recent_avg :=
        if mid < changes.length then
          (changes.drop mid).sum / ((changes.length - mid : ℕ) : ℚ)
        else avg_change
      let older_avg :=
        if 0 < mid then (changes.take mid).sum / (mid : ℚ)
        else avg_change
      let is_accelerating :=
        if 0 < avg_change then decide (older_avg < recent_avg)
        else if avg_change < 0 then decide (recent_avg < older_avg)
        else false
      let positive_count := changes.countP (fun c => decide (0 < c))
      let negative_count := changes.countP (fun c => decide (c < 0))
      let consistency := ((max positive_count negative_count : ℕ) : ℚ) / (changes.length : ℚ)
      { score := ratClamp (avg_change * 10) (-1) 1,
        is_accelerating := is_accelerating,
        consistency := consistency,
        direction :=
          if 1/1000 < avg_change then MomentumDirection.Up
          else if avg_change < -(1/1000) then MomentumDirection.Down
          else MomentumDirection.Neutral }

/-- `PriceState::velocity_pct` computed on one price history: percentage
change from the first sample at or after `now - window_secs` (falling back
to the oldest sample when none qualifies) to the last sample. -/
def velocityOfHistory (history : List (ℚ × ℚ)) (window_secs : ℕ) (now : ℚ) : ℚ :=
  if history.length < 2 then 0
  else
    let cutoff := now - (window_secs : ℚ)
    let oldest_in_window := (history.find? (fun pt => decide (cutoff ≤ pt.2))).map Prod.fst
    let start_price := oldest_in_window.getD ((history.head?.map Prod.fst).getD 0)
    let current_price := (history.getLast?.map Prod.fst).getD 0
    if start_price = 0 then 0
    else (current_price - start_price) / start_price * 100

/-- `PriceState` (`crypto_arb.rs`): current and interval-start price plus
price history per asset. The `last_update` and `interval_start_time`
fields are dropped; no embedded operation reads them. -/
structure PriceState where
  btc_price : ℚ
  btc_interval_start_price : ℚ
  eth_price : ℚ
  eth_interval_start_price : ℚ
  sol_price : ℚ
  sol_interval_start_price : ℚ
  xrp_price : ℚ
  xrp_interval_start_price : ℚ
  btc_price_history : List (ℚ × ℚ)
  eth_price_history : List (ℚ × ℚ)
  sol_price_history : List (ℚ × ℚ)
  xrp_price_history : List (ℚ × ℚ)
deriving DecidableEq, Repr

/-- The per-asset history selection `match` repeated in `velocity_pct`,
`momentum` and `add_price_sample`. -/
def PriceState.history (s : PriceState) (asset : CryptoAsset) : List (ℚ × ℚ) :=
  match asset with
  | CryptoAsset.BTC => s.btc_price_history
  | CryptoAsset.ETH => s.eth_price_history
  | CryptoAsset.SOL => s.sol_price_history
  | CryptoAsset.XRP => s.xrp_price_history

/-- `PriceState::current_price`. -/
def PriceState.current_price (s : PriceState) (asset : CryptoAsset) : ℚ :=
  match asset with
  | CryptoAsset.BTC => s.btc_price
  | CryptoAsset.ETH => s.eth_price
  | CryptoAsset.SOL => s.sol_price
  | CryptoAsset.XRP => s.xrp_price

/-- The per-asset interval-start selection used by `check_opportunity`
and the `*_change_pct` methods. -/
def PriceState.interval_start (s : PriceState) (asset : CryptoAsset) : ℚ :=
  match asset with
  | CryptoAsset.BTC => s.btc_interval_start_price
  | CryptoAsset.ETH => s.eth_interval_start_price
  | CryptoAsset.SOL => s.sol_interval_start_price
  | CryptoAsset.XRP => s.xrp_interval_start_price

/-- `PriceState::price_change_pct`, merging the four identical
`*_change_pct` bodies: 0 when the interval start is 0, otherwise the
percentage change from interval start to current price. -/
def PriceState.price_change_pct (s : PriceState) (asset : CryptoAsset) : ℚ :=
  if s.interval_start asset = 0 then 0
  else (s.current_price asset - s.interval_start asset) / s.interval_start asset * 100

/-- `PriceState::is_up`: current price strictly above interval start. -/
def PriceState.is_up (s : PriceState) (asset : CryptoAsset) : Bool :=
  decide (s.interval_start asset < s.current_price asset)

/-- `PriceState::velocity_pct` on the selected asset history. -/
def PriceState.velocity_pct (s : PriceState) (asset : CryptoAsset)
    (window_secs : ℕ) (now : ℚ) : ℚ :=
  velocityOfHistory (s.history asset) window_secs now

/-- `PriceState::momentum` on the selected asset history. -/
def PriceState.momentum (s : PriceState) (asset : CryptoAsset) : MomentumSignal :=
  momentumOfHistory (s.history asset)

/-- A Polymarket live crypto market (`LiveCryptoMarket` in `crypto_arb.rs`). -/
structure LiveCryptoMarket where
  condition_id : String
  yes_token_id : String
  no_token_id : String
  yes_ask : ℚ
  no_ask : ℚ
  end_time : ℕ
  interval_minutes : ℕ
  description : String
  asset : CryptoAsset
deriving DecidableEq, Repr

/-- The evaluator output (`ArbSignal` in `crypto_arb.rs`); `confidence`
is the `u8` field. -/
structure ArbSignal where
  bet_up : Bool
  token_id : String
  buy_price : ℚ
  edge_pct : ℚ
  crypto_price : ℚ
  asset : CryptoAsset
  price_change_pct : ℚ
  confidence : ℕ
  recommended_size_usd : ℚ
deriving DecidableEq, Repr

/-- `MAX_BUY_PRICE` (`crypto_arb.rs`): 0.99. -/
def MAX_BUY_PRICE : ℚ := 0.99

/-- `MAX_ENTRY_PRICE` (`check_opportunity_for_asset`): the 0.60 mean
reversion cap on entries in velocity mode. -/
def MAX_ENTRY_PRICE : ℚ := 0.60

/-- The minimum-move threshold table of `check_opportunity`
(`crypto_arb.rs` lines 584-609), keyed by asset and resolution-window
length in minutes. -/
def minMove (asset : CryptoAsset) (interval_minutes : ℕ) : ℚ :=
  match asset, interval_minutes with
  | CryptoAsset.BTC, 5 => 0.02
  | CryptoAsset.BTC, 15 => 0.04
  | CryptoAsset.BTC, 60 => 0.08
  | CryptoAsset.BTC, 240 => 0.12
  | CryptoAsset.BTC, _ => 0.06
  | CryptoAsset.ETH, 5 => 0.05
  | CryptoAsset.ETH, 15 => 0.10
  | CryptoAsset.ETH, 60 => 0.20
  | CryptoAsset.ETH, 240 => 0.30
  | CryptoAsset.ETH, _ => 0.15
  | CryptoAsset.SOL, 5 => 0.04
  | CryptoAsset.SOL, 15 => 0.08
  | CryptoAsset.SOL, 60 => 0.15
  | CryptoAsset.SOL, 240 => 0.25
  | CryptoAsset.SOL, _ => 0.10
  | CryptoAsset.XRP, 5 => 0.04
  | CryptoAsset.XRP, 15 => 0.08
  | CryptoAsset.XRP, 60 => 0.15
  | CryptoAsset.XRP, 240 => 0.25
  | CryptoAsset.XRP, _ => 0.10

/-- The minimum-move gate of `check_opportunity`: the source returns
`None` when `abs_change < min_move`; the gate passes otherwise. -/
def passes_min_move (asset : CryptoAsset) (interval_minutes : ℕ) (change_pct : ℚ) : Bool :=
  !decide (|change_pct| < minMove asset interval_minutes)

/-- `prob_multiplier` by resolution window (`check_opportunity`). -/
def probMultiplier (interval_minutes : ℕ) : ℚ :=
  match interval_minutes with
  | 5 => 8
  | 15 => 5
  | 60 => 3
  | 240 => 2
  | _ => 4

/-- `momentum_boost` (`check_opportunity`): 1.2 for strong accelerating
momentum, 1.1 for merely strong, else 1.0. -/
def momentumBoostOf (m : MomentumSignal) : ℚ :=
  if m.is_strong && m.is_accelerating then 1.2
  else if m.is_strong then 1.1
  else 1

/-- `min_edge` by resolution window (`check_opportunity`). -/
def minEdgeFor (interval_minutes : ℕ) : ℚ :=
  match interval_minutes with
  | 5 => 0.3
  | 15 => 0.5
  | 60 => 1.0
  | 240 => 1.5
  | _ => 0.5

/-- `confidence_multiplier` by resolution window (`check_opportunity`). -/
def confidenceMultiplier (interval_minutes : ℕ) : ℚ :=
  match interval_minutes with
  | 5 => 30
  | 15 => 20
  | 60 => 15
  | 240 => 10
  | _ => 20

/-- `CryptoArbEngine::check_opportunity` (edge/interval mode), as a pure
function of the engine fields it reads: the legacy single market, the
price-state snapshot, the `use_momentum` and `use_edge_check` flags and
the position-size bounds. -/
def check_opportunity (market? : Option LiveCryptoMarket) (state : PriceState)
    (use_momentum use_edge_check : Bool)
    (max_position_usd min_position_usd : ℚ) : Option ArbSignal :=
  match market? with
  | none => none
  | some market =>
    let asset := market.asset
    let current_price := state.current_price asset
    let interval_start := state.interval_start asset
    if current_price = 0 ∨ interval_start = 0 then none
    else
      let change_pct := state.price_change_pct asset
      let abs_change := |change_pct|
      if passes_min_move asset market.interval_minutes change_pct then
        let momentum := state.momentum asset
        let is_up := state.is_up asset
        if use_momentum && !momentum.supports_direction is_up then none
        else if use_momentum &&
            (decide (0 < momentum.consistency) && !momentum.is_accelerating &&
             decide (|momentum.score| < 0.5)) then none
        else
          let bet_up := is_up
          let token_id := if is_up then market.yes_token_id else market.no_token_id
          let market_ask := if is_up then market.yes_ask else market.no_ask
          if MAX_BUY_PRICE < market_ask then none
          else
            let prob_multiplier := probMultiplier market.interval_minutes
            let momentum_boost := momentumBoostOf momentum
            let implied_prob := 0.50 + min (abs_change * prob_multiplier * momentum_boost) 45 / 100
            let edge_pct := (implied_prob - market_ask) * 100
            if use_edge_check && decide (edge_pct < minEdgeFor market.interval_minutes) then none
            else
              let momentum_confidence_boost :=
                if momentum.is_strong then 1 + momentum.consistency * 0.5 else 1
              let confidence := f64ToU8
                (min (abs_change * confidenceMultiplier market.interval_minutes *
                      momentum_confidence_boost) 100)
              let kelly_fraction := edge_pct / 100 / (1 - market_ask)
              let size_multiplier :=
                if momentum.is_strong && momentum.is_accelerating then (1.5 : ℚ) else 1
              let recommended_size :=
                min (max (max_position_usd * min kelly_fraction 0.25 * size_multiplier)
                      min_position_usd) max_position_usd
              some { bet_up := bet_up, token_id := token_id, buy_price := market_ask,
                     edge_pct := edge_pct, crypto_price := current_price, asset := asset,
                     price_change_pct := change_pct, confidence := confidence,
                     recommended_size_usd := recommended_size }
      else none

/-- The asset-specific minimum velocity thresholds of
`check_opportunity_for_asset`. -/
def minVelocity (asset : CryptoAsset) : ℚ :=
  match asset with
  | CryptoAsset.BTC => 0.02
  | CryptoAsset.ETH => 0.03
  | CryptoAsset.SOL => 0.04
  | CryptoAsset.XRP => 0.04

/-- `CryptoArbEngine::check_opportunity_for_asset` (velocity/reactive
mode), as a pure function of the per-asset market slot, the price-state
snapshot, an explicit clock value and the configured maximum position
size. -/
def check_opportunity_for_asset (market? : Option LiveCryptoMarket)
    (state : PriceState) (asset : CryptoAsset) (now : ℚ)
    (max_position_usd : ℚ) : Option ArbSignal :=
  match market? with
  | none => none
  | some market =>
    let current_price := state.current_price asset
    if current_price = 0 then none
    else
      let velocity_5s := state.velocity_pct asset 5 now
      let velocity_3s := state.velocity_pct asset 3 now
      let velocity := if |velocity_5s| < |velocity_3s| then velocity_3s else velocity_5s
      let abs_velocity := |velocity|
      if abs_velocity < minVelocity asset then none
      else
        let is_up := decide (0 < velocity)
        let token_id := if is_up then market.yes_token_id else market.no_token_id
        let market_ask := if is_up then market.yes_ask else market.no_ask
        if MAX_BUY_PRICE < market_ask then none
        else if MAX_ENTRY_PRICE < market_ask then none
        else
          let confidence := f64ToU8 (max (min (abs_velocity * 500) 95) 30)
          let edge_pct := abs_velocity * 10
          some { bet_up := is_up, token_id := token_id, buy_price := market_ask,
                 edge_pct := edge_pct, crypto_price := current_price, asset := asset,
                 price_change_pct := velocity, confidence := confidence,
                 recommended_size_usd := max_position_usd }

namespace Bot

/-- `TAKE_PROFIT_PCT` (`crypto_arb_bot.rs`): +8 percent effective P&L. -/
def TAKE_PROFIT_PCT : ℚ := 8

/-- `STOP_LOSS_PCT` (`crypto_arb_bot.rs`): -6 percent effective P&L. -/
def STOP_LOSS_PCT : ℚ := -6

/-- The exit reasons of `check_exits_multi`; the source uses three fixed
string labels for take profit, stop loss and time exit. -/
inductive ExitReason where
  | takeProfit
  | stopLoss
  | timeExit
deriving DecidableEq, Repr

/-- `OpenPosition` (`crypto_arb_bot.rs`); `entry_time` is the `Instant`
modelled as ℚ seconds. -/
structure OpenPosition where
  token_id : String
  size_usd : ℚ
  entry_price : ℚ
  direction_up : Bool
  entry_time : ℚ
  entry_crypto_price : ℚ
  market_description : String
  interval_minutes : ℕ
  asset : CryptoAsset
deriving DecidableEq, Repr

/-- `TradingState` (`crypto_arb_bot.rs`); `last_trade_time` modelled as
an optional ℚ timestamp. -/
structure TradingState where
  last_trade_time : Option ℚ
  min_trade_interval : ℚ
  trades_executed : ℕ
  estimated_pnl : ℚ
  open_positions : List OpenPosition
deriving DecidableEq, Repr

/-- The `max_hold_time` of `check_exits_multi`: 80 percent of the
resolution interval, via the natural division `interval * 60 * 8 / 10`. -/
def maxHoldTime (pos : OpenPosition) : ℚ :=
  ((pos.interval_minutes * 60 * 8 / 10 : ℕ) : ℚ)

/-- The per-asset price selection of `check_exits_multi`. -/
def currentCryptoPrice (btc_price eth_price sol_price xrp_price : ℚ)
    (pos : OpenPosition) : ℚ :=
  match pos.asset with
  | CryptoAsset.BTC => btc_price
  | CryptoAsset.ETH => eth_price
  | CryptoAsset.SOL => sol_price
  | CryptoAsset.XRP => xrp_price

/-- The `effective_pnl_pct` of `check_exits_multi`: underlying change
since entry, doubled, and negated for a down bet. -/
def effectivePnlPct (btc_price eth_price sol_price xrp_price : ℚ)
    (pos : OpenPosition) : ℚ :=
  let crypto_change_pct :=
    (currentCryptoPrice btc_price eth_price sol_price xrp_price pos -
      pos.entry_crypto_price) / pos.entry_crypto_price * 100
  if pos.direction_up then crypto_change_pct * 2 else -crypto_change_pct * 2

/-- The per-position exit decision taken by the loop body of
`TradingState::check_exits_multi`: none for positions held less than 20
seconds, else take profit at `effective_pnl_pct >= 8`, stop loss at
`<= -6`, time exit once the hold time reaches 80 percent of the
interval, else keep the position. -/
def exitDecision (now btc_price eth_price sol_price xrp_price : ℚ)
    (pos : OpenPosition) : Option (ExitReason × ℚ) :=
  let pnl := effectivePnlPct btc_price eth_price sol_price xrp_price pos
  if now - pos.entry_time < 20 then none
  else if TAKE_PROFIT_PCT ≤ pnl then some (ExitReason.takeProfit, pnl)
  else if pnl ≤ STOP_LOSS_PCT then some (ExitReason.stopLoss, pnl)
  else if maxHoldTime pos ≤ now - pos.entry_time then some (ExitReason.timeExit, pnl)
  else none

/-- The drain loop of `TradingState::check_exits_multi`, returning the
exit list and the remaining positions in iteration order. -/
def check_exits_go (now btc_price eth_price sol_price xrp_price : ℚ) :
    List OpenPosition → List (OpenPosition × ExitReason × ℚ) × List OpenPosition
  | [] => ([], [])
  | pos :: rest =>
    let r := check_exits_go now btc_price eth_price sol_price xrp_price rest
    let pnl := effectivePnlPct btc_price eth_price sol_price xrp_price pos
    if now - pos.entry_time < 20 then (r.1, pos :: r.2)
    else if TAKE_PROFIT_PCT ≤ pnl then
      ((pos, ExitReason.takeProfit, pnl) :: r.1, r.2)
    else if pnl ≤ STOP_LOSS_PCT then
      ((pos, ExitReason.stopLoss, pnl) :: r.1, r.2)
    else if maxHoldTime pos ≤ now - pos.entry_time then
      ((pos, ExitReason.timeExit, pnl) :: r.1, r.2)
    else (r.1, pos :: r.2)

/-- `TradingState::check_exits_multi`: drains `open_positions`, keeps
the non-exiting positions and returns the exit triples; in the source the
reassignment of `self.open_positions` happens in the same call. -/
def TradingState.check_exits_multi (s : TradingState)
    (now btc_price eth_price sol_price xrp_price : ℚ) :
    List (OpenPosition × ExitReason × ℚ) × TradingState :=
  let r := check_exits_go now btc_price eth_price sol_price xrp_price s.open_positions
  (r.1, { s with open_positions := r.2 })

/-- `TradingState::can_trade_asset`: false exactly when some open
position is for the given asset. -/
def TradingState.can_trade_asset (s : TradingState) (asset : CryptoAsset) : Bool :=
  !(s.open_positions.any fun pos => pos.asset = asset)

/-- `TradingState::record_trade`: stamps the trade time, bumps the
counter and pushes a new `OpenPosition` built from the signal. -/
def TradingState.record_trade (s : TradingState) (signal : ArbSignal)
    (market_desc : String) (interval_minutes : ℕ) (now : ℚ) : TradingState :=
  { s with
    last_trade_time := some now,
    trades_executed := s.trades_executed + 1,
    open_positions := s.open_positions ++
      [{ token_id := signal.token_id,
         size_usd := signal.recommended_size_usd,
         entry_price := signal.buy_price,
         direction_up := signal.bet_up,
         entry_time := now,
         entry_crypto_price := signal.crypto_price,
         market_description := market_desc,
         interval_minutes := interval_minutes,
         asset := signal.asset }] }

end Bot

namespace Tracker

/-- `STOP_LOSS_PCT` (`position_tracker.rs`): a 5 percent loss triggers. -/
def STOP_LOSS_PCT : ℚ := 0.05

/-- `MIN_POSITION_AGE_SECS` (`position_tracker.rs`). -/
def MIN_POSITION_AGE_SECS : ℕ := 30

/-- `Position` (`position_tracker.rs`); `opened_at` is modelled by the
explicit `age_secs` argument of `should_stop_loss`, matching
`opened_at.elapsed().as_secs()`. -/
structure Position where
  token_id : String
  entry_price : ℚ
  shares : ℚ
  is_long : Bool
deriving DecidableEq, Repr

/-- `Position::pnl_pct`. -/
def Position.pnl_pct (p : Position) (current_price : ℚ) : ℚ :=
  if p.entry_price = 0 then 0
  else if p.is_long then (current_price - p.entry_price) / p.entry_price
  else (p.entry_price - current_price) / p.entry_price

/-- `Position::should_stop_loss`: never for positions younger than
`MIN_POSITION_AGE_SECS`, else when `pnl_pct <= -STOP_LOSS_PCT`. -/
def Position.should_stop_loss (p : Position) (age_secs : ℕ) (current_price : ℚ) : Bool :=
  if age_secs < MIN_POSITION_AGE_SECS then false
  else decide (p.pnl_pct current_price ≤ -STOP_LOSS_PCT)

end Tracker

namespace Filters

/-- `FilterResult` (`strategy_filters.rs`); reasons abbreviated. -/
inductive FilterResult where
  | pass
  | fail (reason : String)
deriving DecidableEq, Repr

/-- `FilterResult::passed`. -/
def FilterResult.passed : FilterResult → Bool
  | FilterResult.pass => true
  | FilterResult.fail _ => false

/-- `MomentumFilterConfig`. -/
structure MomentumFilterConfig where
  min_score : ℚ
  min_consistency : ℚ
  require_acceleration : Bool
deriving DecidableEq, Repr

/-- `OrderbookFilterConfig`. -/
structure OrderbookFilterConfig where
  min_depth_usd : ℚ
  check_both_sides : Bool
deriving DecidableEq, Repr

/-- `VolumeSurgeFilterConfig`. -/
structure VolumeSurgeFilterConfig where
  surge_multiplier : ℚ
  min_current_volume : ℚ
deriving DecidableEq, Repr

/-- `TimeFilterConfig` (hours in the fixed UTC-5 trading timezone). -/
structure TimeFilterConfig where
  start_hour_est : ℕ
  end_hour_est : ℕ
  allow_weekends : Bool
deriving DecidableEq, Repr

/-- `OrderbookDepth`. -/
structure OrderbookDepth where
  bid_depth_usd : ℚ
  ask_depth_usd : ℚ
  spread_pct : ℚ
deriving DecidableEq, Repr

/-- `VolumeData`. -/
structure VolumeData where
  current_volume : ℚ
  average_volume : ℚ
deriving DecidableEq, Repr

/-- `StrategyConfig`. -/
structure StrategyConfig where
  momentum : MomentumFilterConfig
  orderbook : OrderbookFilterConfig
  volume : VolumeSurgeFilterConfig
  time : TimeFilterConfig
  enable_momentum : Bool
  enable_orderbook : Bool
  enable_volume : Bool
  enable_time : Bool
deriving DecidableEq, Repr

/-- `SmartMomentumFilter::check`. -/
def momentumFilterCheck (cfg : MomentumFilterConfig) (momentum_score consistency : ℚ)
    (is_accelerating direction_matches : Bool) : FilterResult :=
  if !direction_matches then FilterResult.fail "Momentum direction mismatch"
  else if |momentum_score| < cfg.min_score then FilterResult.fail "Momentum too weak"
  else if consistency < cfg.min_consistency then FilterResult.fail "Momentum not consistent"
  else if cfg.require_acceleration && !is_accelerating then
    FilterResult.fail "Momentum is decelerating"
  else FilterResult.pass

/-- `OrderbookDepthFilter::check`. -/
def orderbookFilterCheck (cfg : OrderbookFilterConfig) (depth : OrderbookDepth)
    (buying_yes : Bool) : FilterResult :=
  let relevant_depth := if buying_yes then depth.ask_depth_usd else depth.bid_depth_usd
  if relevant_depth < cfg.min_depth_usd then FilterResult.fail "Insufficient orderbook depth"
  else if cfg.check_both_sides &&
      decide ((if buying_yes then depth.bid_depth_usd else depth.ask_depth_usd) <
        cfg.min_depth_usd * 0.5) then
    FilterResult.fail "Other side too thin"
  else FilterResult.pass

/-- `VolumeSurgeFilter::check`. -/
def volumeFilterCheck (cfg : VolumeSurgeFilterConfig) (volume : VolumeData) : FilterResult :=
  if volume.current_volume < cfg.min_current_volume then FilterResult.fail "Volume too low"
  else if 0 < volume.average_volume &&
      decide (volume.current_volume / volume.average_volume < cfg.surge_multiplier) then
    FilterResult.fail "No volume surge"
  else FilterResult.pass

/-- `TimeOfDayFilter::check` on a Unix timestamp in seconds: shift to the
fixed UTC-5 offset, gate on the hour range `[start, end)` and reject
weekends unless allowed. Day 0 of the Unix epoch is a Thursday, so the
Sunday-based weekday index is `(day + 4) mod 7`. -/
def timeFilterCheck (cfg : TimeFilterConfig) (t : ℤ) : FilterResult :=
  let est := t - 5 * 3600
  let hour := ((est.emod 86400) / 3600).toNat
  if hour < cfg.start_hour_est ∨ cfg.end_hour_est ≤ hour then
    FilterResult.fail "Outside trading hours"
  else if !cfg.allow_weekends &&
      (let weekday := (est.fdiv 86400 + 4).emod 7
       decide (weekday = 6) || decide (weekday = 0)) then
    FilterResult.fail "Weekend trading disabled"
  else FilterResult.pass

/-- `FilterResults` (`strategy_filters.rs`): one optional outcome per
filter, `none` meaning not evaluated. -/
structure FilterResults where
  momentum : Option FilterResult
  orderbook : Option FilterResult
  volume : Option FilterResult
  time : Option FilterResult
deriving DecidableEq, Repr

/-- `FilterResults::all_passed`: every evaluated filter passed; a `none`
entry never blocks. -/
def FilterResults.all_passed (r : FilterResults) : Bool :=
  [r.momentum, r.orderbook, r.volume, r.time].all fun o =>
    match o with
    | some result => result.passed
    | none => true

/-- `StrategyFilter::check_all`: runs each enabled filter; a disabled
filter yields `none`, and an enabled orderbook or volume filter whose
input data is absent also yields `none` via `Option.map`. -/
def check_all (cfg : StrategyConfig) (momentum_score consistency : ℚ)
    (is_accelerating direction_matches : Bool)
    (orderbook : Option OrderbookDepth) (volume : Option VolumeData)
    (t : ℤ) (buying_yes : Bool) : FilterResults :=
  { momentum :=
      if cfg.enable_momentum then
        some (momentumFilterCheck cfg.momentum momentum_score consistency
          is_accelerating direction_matches)
      else none,
    orderbook :=
      if cfg.enable_orderbook then
        orderbook.map fun ob => orderbookFilterCheck cfg.orderbook ob buying_yes
      else none,
    volume :=
      if cfg.enable_volume then volume.map fun v => volumeFilterCheck cfg.volume v
      else none,
    time := if cfg.enable_time then some (timeFilterCheck cfg.time t) else none }

end Filters

/-! ## Concrete example inputs, used to evaluate the embedded functions -/

/-- A BTC 15-minute market quoted at 50 cents on both sides. -/
def exampleMarket15 : LiveCryptoMarket :=
  { condition_id := "c", yes_token_id := "y", no_token_id := "n",
    yes_ask := 0.50, no_ask := 0.50, end_time := 0, interval_minutes := 15,
    description := "btc updown", asset := CryptoAsset.BTC }

/-- A BTC 15-minute market quoted at 52 cents on the yes side. -/
def exampleMarket15b : LiveCryptoMarket :=
  { condition_id := "c", yes_token_id := "y", no_token_id := "n",
    yes_ask := 0.52, no_ask := 0.48, end_time := 0, interval_minutes := 15,
    description := "btc updown", asset := CryptoAsset.BTC }

/-- A BTC 15-minute market quoted at 55 cents on the yes side. -/
def exampleMarketVel : LiveCryptoMarket :=
  { condition_id := "c", yes_token_id := "y", no_token_id := "n",
    yes_ask := 0.55, no_ask := 0.47, end_time := 0, interval_minutes := 15,
    description := "btc updown", asset := CryptoAsset.BTC }

/-- BTC moved from 100000 at interval start to 100400 (+0.4 percent). -/
def exampleStateEdge : PriceState :=
  ⟨100400, 100000, 0, 0, 0, 0, 0, 0, [], [], [], []⟩

/-- BTC moved from 100000 at interval start to 100600 (+0.6 percent). -/
def exampleStateEdgeB : PriceState :=
  ⟨100600, 100000, 0, 0, 0, 0, 0, 0, [], [], [], []⟩

/-- BTC history with a +0.03 percent move inside the last 5 seconds
(samples at t=6 and t=10). -/
def exampleStateVel : PriceState :=
  ⟨100030, 0, 0, 0, 0, 0, 0, 0, [(100000, 6), (100030, 10)], [], [], []⟩

/-- A strategy configuration with all four filters enabled. -/
def exampleStrategyConfig : Filters.StrategyConfig :=
  { momentum := ⟨0.4, 0.8, true⟩, orderbook := ⟨500, false⟩,
    volume := ⟨2, 1000⟩, time := ⟨9, 16, false⟩,
    enable_momentum := true, enable_orderbook := true,
    enable_volume := true, enable_time := true }

/-! ## Helper lemmas -/

/-- On a list of positive prices, every consecutive pair contributes one
step change. -/
theorem stepChanges_length (l : List ℚ) (h : ∀ a ∈ l, 0 < a) :
    (stepChanges l).length = l.length - 1 := by
  induction l with
  | nil => simp [stepChanges]
  | cons p rest ih =>
    cases rest with
    | nil => simp [stepChanges]
    | cons q rest2 =>
      have hp : 0 < p := h p (by simp)
      have hrest : ∀ a ∈ q :: rest2, 0 < a := fun a ha => h a (List.mem_cons_of_mem _ ha)
      simp only [stepChanges, if_pos hp, List.length_append, List.length_cons,
        List.length_nil, ih hrest]
      omega

/-- On a strictly increasing list of positive prices, every step change
is strictly positive. -/
theorem stepChanges_pos (l : List ℚ) (hc : l.Chain' (· < ·)) (h : ∀ a ∈ l, 0 < a) :
    ∀ c ∈ stepChanges l, 0 < c := by
  induction l with
  | nil => simp [stepChanges]
  | cons p rest ih =>
    cases rest with
    | nil => simp [stepChanges]
    | cons q rest2 =>
      have hp : 0 < p := h p (by simp)
      have hpq : p < q := (List.chain'_cons.mp hc).1
      have hc2 : (q :: rest2).Chain' (· < ·) := (List.chain'_cons.mp hc).2
      have hrest : ∀ a ∈ q :: rest2, 0 < a := fun a ha => h a (List.mem_cons_of_mem _ ha)
      intro c hcmem
      simp only [stepChanges, if_pos hp, List.cons_append, List.nil_append,
        List.mem_cons] at hcmem
      rcases hcmem with rfl | hcmem
      · exact mul_pos (div_pos (sub_pos.mpr hpq) hp) (by norm_num)
      · exact ih hc2 hrest c hcmem

/-- The two clamp spellings agree: `x.min(95).max(30)` from the source
equals `clamp(x, 30, 95)` from the spec. -/
theorem max_min_comm_30_95 (x : ℚ) : max (min x 95) 30 = min (max x 30) 95 := by
  rcases le_total x 30 with h | h
  · rw [min_eq_left (h.trans (by norm_num)), max_eq_right h, min_eq_left (by norm_num)]
  · rcases le_total x 95 with h2 | h2
    · rw [min_eq_left h2, max_eq_left h, min_eq_left h2]
    · rw [min_eq_right h2, max_eq_left (by norm_num), max_eq_left h, min_eq_right h2]

/-! ## Claims -/

/-- C1 counterexample: with samples (price 100 at t=0) and (price 110 at
t=10), `velocity_pct(BTC, 5)` evaluated at t=10 returns 0 and not the
claimed `(110 - 100) / 100 * 100 = 10`: the newest sample itself lies
inside the window and is selected as the window-start price. -/
theorem velocity_two_sample_counterexample :
    PriceState.velocity_pct
      ⟨0, 0, 0, 0, 0, 0, 0, 0, [(100, 0), (110, 10)], [], [], []⟩
      CryptoAsset.BTC 5 10 = 0 ∧
    ((110 - 100 : ℚ) / 100 * 100 = 10) ∧ (0 : ℚ) ≠ 10 := by
  refine ⟨?_, by norm_num, by norm_num⟩
  unfold PriceState.velocity_pct PriceState.history velocityOfHistory
  norm_num [List.find?]

/-- C1 (amended): for a history of exactly the two samples (P0, t=0) and
(P1, t=10), `velocity_pct(BTC, 5)` at t=10 returns 0 (the newest sample
is the only sample in the window and becomes the window start); with
fewer than 2 samples velocity is 0; and the fallback to the oldest sample
does fire once no sample lies in the window, e.g. at t=20, yielding
`(P1 - P0) / P0 * 100`. -/
theorem velocity_two_sample_window :
    (∀ (s : PriceState) (p0 p1 : ℚ), s.btc_price_history = [(p0, 0), (p1, 10)] →
      s.velocity_pct CryptoAsset.BTC 5 10 = 0) ∧
    (∀ (s : PriceState) (a : CryptoAsset) (w : ℕ) (now : ℚ),
      (s.history a).length < 2 → s.velocity_pct a w now = 0) ∧
    (∀ (s : PriceState) (p0 p1 : ℚ), s.btc_price_history = [(p0, 0), (p1, 10)] →
      p0 ≠ 0 → s.velocity_pct CryptoAsset.BTC 5 20 = (p1 - p0) / p0 * 100) := by
  refine ⟨?_, ?_, ?_⟩
  · intro s p0 p1 h
    unfold PriceState.velocity_pct PriceState.history velocityOfHistory
    rw [h]
    norm_num [List.find?]
  · intro s a w now h
    unfold PriceState.velocity_pct velocityOfHistory
    rw [if_pos h]
  · intro s p0 p1 h h0
    unfold PriceState.velocity_pct PriceState.history velocityOfHistory
    rw [h]
    norm_num [List.find?]
    simp [h0]

/-- C1 witness: the amended statement evaluated on a concrete history. -/
theorem velocity_two_sample_window_witness :
    PriceState.velocity_pct
      ⟨0, 0, 0, 0, 0, 0, 0, 0, [(200, 0), (220, 10)], [], [], []⟩
      CryptoAsset.BTC 5 10 = 0 :=
  velocity_two_sample_window.1 _ 200 220 rfl

/-- C2 counterexample: a strictly increasing 3-sample history whose mean
step change (about 0.0001 percent) is below the 0.001 dead-zone yields
`direction = Neutral`, not `Up` as the claim states for arbitrary
strictly increasing histories. -/
theorem momentum_small_increase_counterexample :
    ((100000 : ℚ) < 100001 ∧ (100001 : ℚ) < 100002) ∧
    (PriceState.momentum
      ⟨0, 0, 0, 0, 0, 0, 0, 0,
        [(100000, 0), (100001, 1), (100002, 2)], [], [], []⟩
      CryptoAsset.BTC).direction = MomentumDirection.Neutral ∧
    MomentumDirection.Neutral ≠ MomentumDirection.Up := by
  refine ⟨⟨by norm_num, by norm_num⟩, ?_, by simp⟩
  unfold PriceState.momentum momentumOfHistory PriceState.history
  norm_num [stepChanges]

/-- C2 (amended): for a history of at least 3 samples with positive,
strictly increasing prices, `momentum` returns `consistency = 1.0`, and
`direction = Up` exactly when the mean per-step percentage change exceeds
the 0.001 dead-zone threshold (otherwise it is Neutral). -/
theorem momentum_strictly_increasing (s : PriceState) (a : CryptoAsset)
    (h3 : 3 ≤ (s.history a).length)
    (hpos : ∀ pr ∈ s.history a, 0 < pr.1)
    (hinc : ((s.history a).map Prod.fst).Chain' (· < ·)) :
    (s.momentum a).consistency = 1 ∧
    ((s.momentum a).direction = MomentumDirection.Up ↔
      1/1000 < meanStepChange (s.history a)) := by
  have hposl : ∀ x ∈ (s.history a).map Prod.fst, 0 < x := by
    intro x hx
    rw [List.mem_map] at hx
    obtain ⟨pr, hpr, rfl⟩ := hx
    exact hpos pr hpr
  have hlen : (stepChanges ((s.history a).map Prod.fst)).length =
      (s.history a).length - 1 := by
    rw [stepChanges_length _ hposl, List.length_map]
  have hallpos := stepChanges_pos _ hinc hposl
  have hcount1 : (stepChanges ((s.history a).map Prod.fst)).countP
      (fun c => decide (0 < c)) = (stepChanges ((s.history a).map Prod.fst)).length :=
    List.countP_eq_length.mpr fun c hc => by simpa using hallpos c hc
  have hcount0 : (stepChanges ((s.history a).map Prod.fst)).countP
      (fun c => decide (c < 0)) = 0 :=
    List.countP_eq_zero.mpr fun c hc => by simpa using not_lt.mpr (le_of_lt (hallpos c hc))
  have hlpos : 0 < (stepChanges ((s.history a).map Prod.fst)).length := by omega
  have hempty : (stepChanges ((s.history a).map Prod.fst)).isEmpty = false := by
    cases hSC : stepChanges ((s.history a).map Prod.fst) with
    | nil => exfalso; rw [hSC] at hlpos; simp at hlpos
    | cons c cs => rfl
  unfold PriceState.momentum momentumOfHistory
  simp only [if_neg (show ¬ (s.history a).length < 3 by omega), hempty,
    Bool.false_eq_true, if_false, hcount1, hcount0, Nat.max_zero]
  constructor
  · exact div_self (by exact_mod_cast Nat.pos_iff_ne_zero.mp hlpos)
  · rw [meanStepChange]
    split
    · simp_all
    · split
      · simp_all
      · simp_all

/-- C2 witness: a concrete strictly increasing history with a mean step
change above the dead-zone. -/
theorem momentum_strictly_increasing_witness :
    (PriceState.momentum
      ⟨0, 0, 0, 0, 0, 0, 0, 0, [(100, 0), (101, 1), (103, 2)], [], [], []⟩
      CryptoAsset.BTC).consistency = 1 :=
  (momentum_strictly_increasing _ CryptoAsset.BTC
    (by norm_num [PriceState.history])
    (by intro pr hpr; simp [PriceState.history] at hpr
        rcases hpr with h | h | h <;> rw [h] <;> norm_num)
    (by norm_num [PriceState.history, List.chain'_cons])).1

/-- C3: the minimum-move gate of `check_opportunity` for BTC at the
15-minute window has threshold 0.04 percent; for every (asset, window)
cell an interval change whose absolute value exactly equals the
threshold passes the gate, any absolute change strictly below it fails
the gate, and in that case `check_opportunity` emits no signal. -/
theorem min_move_gate_boundary :
    minMove CryptoAsset.BTC 15 = 0.04 ∧
    (∀ (a : CryptoAsset) (w : ℕ) (c : ℚ), |c| = minMove a w →
      passes_min_move a w c = true) ∧
    (∀ (a : CryptoAsset) (w : ℕ) (c : ℚ), |c| < minMove a w →
      passes_min_move a w c = false) ∧
    (∀ (market : LiveCryptoMarket) (state : PriceState) (um ue : Bool) (mx mn : ℚ),
      |state.price_change_pct market.asset| < minMove market.asset market.interval_minutes →
      check_opportunity (some market) state um ue mx mn = none) := by
  refine ⟨rfl, ?_, ?_, ?_⟩
  · intro a w c h
    simp [passes_min_move, h]
  · intro a w c h
    simp [passes_min_move, h]
  · intro market state um ue mx mn h
    have hp : passes_min_move market.asset market.interval_minutes
        (state.price_change_pct market.asset) = false := by
      simp [passes_min_move, h]
    simp only [check_opportunity]
    split
    · rfl
    · rw [hp]
      simp

/-- C3 witness: an at-threshold change for the BTC 15-minute cell passes
the gate. -/
theorem min_move_gate_boundary_witness :
    passes_min_move CryptoAsset.BTC 15 0.04 = true :=
  min_move_gate_boundary.2.1 CryptoAsset.BTC 15 0.04
    (abs_of_nonneg (by norm_num))

/-- Facts about any signal emitted by `check_opportunity`: its entry ask,
how its edge is computed from the implied probability, the minimum-edge
gate when enabled, and the capped Kelly sizing. -/
theorem check_opportunity_emitted (market : LiveCryptoMarket) (state : PriceState)
    (um ue : Bool) (mx mn : ℚ) (sig : ArbSignal)
    (h : check_opportunity (some market) state um ue mx mn = some sig) :
    sig.buy_price = (if state.is_up market.asset then market.yes_ask else market.no_ask) ∧
    sig.edge_pct = (0.50 + min (|state.price_change_pct market.asset| *
        probMultiplier market.interval_minutes *
        momentumBoostOf (state.momentum market.asset)) 45 / 100 - sig.buy_price) * 100 ∧
    (ue = true → minEdgeFor market.interval_minutes ≤ sig.edge_pct) ∧
    sig.recommended_size_usd =
      min (max (mx * min (sig.edge_pct / 100 / (1 - sig.buy_price)) 0.25 *
        (if (state.momentum market.asset).is_strong &&
            (state.momentum market.asset).is_accelerating then (1.5 : ℚ) else 1)) mn) mx := by
  simp only [check_opportunity] at h
  split at h
  · exact absurd h (by simp)
  · split at h
    · split at h
      · exact absurd h (by simp)
      · split at h
        · exact absurd h (by simp)
        · split at h
          all_goals rename_i hup
          all_goals
            (split at h
             · exact absurd h (by simp)
             · split at h
               · exact absurd h (by simp)
               · rename_i hedge
                 injection h with h
                 subst h
                 refine ⟨by simp [hup], by simp [hup], ?_, by simp [hup]⟩
                 intro hue
                 subst hue
                 simp only [Bool.true_and] at hedge
                 exact not_lt.mp (by simpa using hedge))
    · exact absurd h (by simp)

/-- C4: every signal emitted in edge/interval mode carries
`edge_pct = (implied_prob - ask) * 100` with
`implied_prob = 0.5 + min(abs_change * prob_multiplier * momentum_boost, 45) / 100`,
the window multipliers are 8, 5, 3, 2 with default 4, the momentum boost
is 1.2 / 1.1 / 1.0, and when the edge check is enabled the emitted edge
is at least the window-dependent minimum edge. -/
theorem edge_mode_edge_formula (market : LiveCryptoMarket) (state : PriceState)
    (um ue : Bool) (mx mn : ℚ) (sig : ArbSignal)
    (h : check_opportunity (some market) state um ue mx mn = some sig) :
    sig.edge_pct = (0.50 + min (|state.price_change_pct market.asset| *
        probMultiplier market.interval_minutes *
        momentumBoostOf (state.momentum market.asset)) 45 / 100 - sig.buy_price) * 100 ∧
    (ue = true → minEdgeFor market.interval_minutes ≤ sig.edge_pct) ∧
    (probMultiplier 5 = 8 ∧ probMultiplier 15 = 5 ∧ probMultiplier 60 = 3 ∧
      probMultiplier 240 = 2 ∧ probMultiplier 7 = 4) ∧
    (∀ m : MomentumSignal, momentumBoostOf m =
      if m.is_strong && m.is_accelerating then 1.2
      else if m.is_strong then 1.1 else 1) := by
  obtain ⟨-, hedge, hmin, -⟩ := check_opportunity_emitted market state um ue mx mn sig h
  exact ⟨hedge, hmin, ⟨rfl, rfl, rfl, rfl, rfl⟩, fun m => rfl⟩

/-- C5: every signal emitted in edge/interval mode is sized by the capped
Kelly formula, and (when the configured minimum does not exceed the
maximum) the recommended size always lies within
`[min_position_usd, max_position_usd]`. -/
theorem edge_mode_kelly_cap (market : LiveCryptoMarket) (state : PriceState)
    (um ue : Bool) (mx mn : ℚ) (sig : ArbSignal) (hmn : mn ≤ mx)
    (h : check_opportunity (some market) state um ue mx mn = some sig) :
    sig.recommended_size_usd =
      min (max (mx * min (sig.edge_pct / 100 / (1 - sig.buy_price)) 0.25 *
        (if (state.momentum market.asset).is_strong &&
            (state.momentum market.asset).is_accelerating then (1.5 : ℚ) else 1)) mn) mx ∧
    mn ≤ sig.recommended_size_usd ∧ sig.recommended_size_usd ≤ mx := by
  obtain ⟨-, -, -, hsize⟩ := check_opportunity_emitted market state um ue mx mn sig h
  refine ⟨hsize, ?_, ?_⟩
  · rw [hsize]
    exact le_min (le_max_right _ _) hmn
  · rw [hsize]
    exact min_le_right _ _

/-- C4 witness: a concrete emitted signal whose edge is the implied
probability minus the ask, times 100. -/
theorem edge_mode_edge_formula_witness :
    (⟨true, "y", 0.50, 2, 100400, CryptoAsset.BTC, 0.4, 8, 1⟩ : ArbSignal).edge_pct =
      (0.50 + min (|exampleStateEdge.price_change_pct exampleMarket15.asset| *
          probMultiplier exampleMarket15.interval_minutes *
          momentumBoostOf (exampleStateEdge.momentum exampleMarket15.asset)) 45 / 100 -
        (⟨true, "y", 0.50, 2, 100400, CryptoAsset.BTC, 0.4, 8, 1⟩ : ArbSignal).buy_price) * 100 :=
  (edge_mode_edge_formula exampleMarket15 exampleStateEdge false true 2 1 _
    (by norm_num [check_opportunity, exampleMarket15, exampleStateEdge,
      PriceState.current_price, PriceState.interval_start, PriceState.price_change_pct,
      PriceState.is_up, PriceState.momentum, PriceState.history, momentumOfHistory,
      momentumSignalDefault, MomentumSignal.is_strong, passes_min_move, minMove,
      probMultiplier, momentumBoostOf, minEdgeFor, confidenceMultiplier, f64ToU8,
      MAX_BUY_PRICE, ratClamp, min_def, max_def,
      show |(2/5 : ℚ)| = 2/5 from abs_of_nonneg (by norm_num)] <;> decide)).1

/-- C5 witness: the concrete emitted signal above respects the position
bounds 1 and 4. -/
theorem edge_mode_kelly_cap_witness :
    (1 : ℚ) ≤ (⟨true, "y", 0.52, 1, 100600, CryptoAsset.BTC, 0.6, 12, 1⟩ :
      ArbSignal).recommended_size_usd ∧
    (⟨true, "y", 0.52, 1, 100600, CryptoAsset.BTC, 0.6, 12, 1⟩ :
      ArbSignal).recommended_size_usd ≤ 4 :=
  (edge_mode_kelly_cap exampleMarket15b exampleStateEdgeB false true 4 1 _
    (by norm_num)
    (by norm_num [check_opportunity, exampleMarket15b, exampleStateEdgeB,
      PriceState.current_price, PriceState.interval_start, PriceState.price_change_pct,
      PriceState.is_up, PriceState.momentum, PriceState.history, momentumOfHistory,
      momentumSignalDefault, MomentumSignal.is_strong, passes_min_move, minMove,
      probMultiplier, momentumBoostOf, minEdgeFor, confidenceMultiplier, f64ToU8,
      MAX_BUY_PRICE, ratClamp, min_def, max_def,
      show |(3/5 : ℚ)| = 3/5 from abs_of_nonneg (by norm_num)] <;> decide)).2

/-- C6: every signal emitted in velocity/reactive mode has
`confidence = clamp(abs velocity * 500, 30, 95)` (as the `u8` cast),
`edge_pct = abs velocity * 10`, and the configured maximum position as
its size; and any emitted ask is at most the 0.60 mean reversion cap, so
no signal is emitted above it. -/
theorem velocity_mode_signal (market : LiveCryptoMarket) (state : PriceState)
    (a : CryptoAsset) (now : ℚ) (mx : ℚ) (sig : ArbSignal)
    (h : check_opportunity_for_asset (some market) state a now mx = some sig) :
    sig.confidence = f64ToU8 (ratClamp (|sig.price_change_pct| * 500) 30 95) ∧
    sig.edge_pct = |sig.price_change_pct| * 10 ∧
    sig.recommended_size_usd = mx ∧
    sig.buy_price ≤ MAX_ENTRY_PRICE := by
  simp only [check_opportunity_for_asset] at h
  split at h
  · exact absurd h (by simp)
  · split at h
    all_goals
      (split at h
       · exact absurd h (by simp)
       · split at h
         all_goals rename_i hup
         all_goals
           (split at h
            · exact absurd h (by simp)
            · split at h
              · exact absurd h (by simp)
              · rename_i hentry
                injection h with h
                subst h
                refine ⟨?_, by simp, rfl, not_lt.mp hentry⟩
                simp only [ratClamp]
                rw [max_min_comm_30_95]))

/-- C6 witness: a concrete emitted velocity-mode signal takes the full
configured maximum position size. -/
theorem velocity_mode_signal_witness :
    (⟨true, "y", 0.55, 0.3, 100030, CryptoAsset.BTC, 0.03, 30, 7⟩ :
      ArbSignal).recommended_size_usd = 7 :=
  (velocity_mode_signal exampleMarketVel exampleStateVel CryptoAsset.BTC 10 7 _
    (by norm_num [check_opportunity_for_asset, exampleMarketVel, exampleStateVel,
      PriceState.current_price, PriceState.velocity_pct, PriceState.history,
      velocityOfHistory, List.find?, minVelocity, MAX_BUY_PRICE, MAX_ENTRY_PRICE,
      f64ToU8, min_def, max_def, abs_zero,
      show |(3/100 : ℚ)| = 3/100 from abs_of_nonneg (by norm_num)] <;> decide)).2.2.1

/-- C7: with the 5 percent stop-loss constant, a long position entered at
0.50 and old enough triggers the stop at price 0.475 (-5 percent) but not
at 0.48 (-4 percent); a position younger than the minimum hold age never
triggers, whatever the price. -/
theorem stop_loss_boundary :
    Tracker.STOP_LOSS_PCT = 0.05 ∧
    (∀ (tok : String) (sh : ℚ) (age : ℕ), Tracker.MIN_POSITION_AGE_SECS ≤ age →
      Tracker.Position.should_stop_loss ⟨tok, 0.50, sh, true⟩ age 0.475 = true) ∧
    (∀ (tok : String) (sh : ℚ) (age : ℕ), Tracker.MIN_POSITION_AGE_SECS ≤ age →
      Tracker.Position.should_stop_loss ⟨tok, 0.50, sh, true⟩ age 0.48 = false) ∧
    (∀ (p : Tracker.Position) (age : ℕ) (cur : ℚ),
      age < Tracker.MIN_POSITION_AGE_SECS →
      Tracker.Position.should_stop_loss p age cur = false) := by
  refine ⟨rfl, ?_, ?_, ?_⟩
  · intro tok sh age hage
    unfold Tracker.Position.should_stop_loss Tracker.Position.pnl_pct
    rw [if_neg (by omega)]
    norm_num [Tracker.STOP_LOSS_PCT]
  · intro tok sh age hage
    unfold Tracker.Position.should_stop_loss Tracker.Position.pnl_pct
    rw [if_neg (by omega)]
    norm_num [Tracker.STOP_LOSS_PCT]
  · intro p age cur h
    unfold Tracker.Position.should_stop_loss
    rw [if_pos h]

/-- C7 witness: the boundary evaluated at a 60-second-old position. -/
theorem stop_loss_boundary_witness :
    Tracker.Position.should_stop_loss ⟨"t", 0.50, 100, true⟩ 60 0.475 = true :=
  stop_loss_boundary.2.1 "t" 100 60 (by norm_num [Tracker.MIN_POSITION_AGE_SECS])

/-- The drain loop of `check_exits_multi` computes exactly the
filterMap/filter partition by the per-position exit decision. -/
theorem check_exits_go_spec (now b e so x : ℚ) (l : List Bot.OpenPosition) :
    Bot.check_exits_go now b e so x l =
      (l.filterMap (fun p => (Bot.exitDecision now b e so x p).map fun rp => (p, rp)),
       l.filter fun p => (Bot.exitDecision now b e so x p).isNone) := by
  induction l with
  | nil => rfl
  | cons pos rest ih =>
    simp only [Bot.check_exits_go, Bot.exitDecision, ih, List.filterMap_cons,
      List.filter_cons]
    by_cases h1 : now - pos.entry_time < 20
    · simp [h1]
    · by_cases h2 : Bot.TAKE_PROFIT_PCT ≤ Bot.effectivePnlPct b e so x pos
      · simp [h1, h2]
      · by_cases h3 : Bot.effectivePnlPct b e so x pos ≤ Bot.STOP_LOSS_PCT
        · simp [h1, h2, h3]
        · by_cases h4 : Bot.maxHoldTime pos ≤ now - pos.entry_time
          · simp [h1, h2, h3, h4]
          · simp [h1, h2, h3, h4]

/-- C8: exit evaluation returns exactly the triples (position, exit
reason, effective P&L percentage) of the open positions whose exit rule
fires, removes exactly those positions from the trading state in the
same call, keeps every non-exiting position in order, and leaves all
other state fields unchanged. -/
theorem check_exits_multi_partition (s : Bot.TradingState) (now b e so x : ℚ) :
    (s.check_exits_multi now b e so x).1 =
      s.open_positions.filterMap
        (fun p => (Bot.exitDecision now b e so x p).map fun rp => (p, rp)) ∧
    (s.check_exits_multi now b e so x).2.open_positions =
      s.open_positions.filter (fun p => (Bot.exitDecision now b e so x p).isNone) ∧
    (s.check_exits_multi now b e so x).2.last_trade_time = s.last_trade_time ∧
    (s.check_exits_multi now b e so x).2.trades_executed = s.trades_executed ∧
    (s.check_exits_multi now b e so x).2.estimated_pnl = s.estimated_pnl := by
  unfold Bot.TradingState.check_exits_multi
  rw [check_exits_go_spec]
  exact ⟨rfl, rfl, rfl, rfl, rfl⟩

/-- C9: after `record_trade` for a signal on asset X, `can_trade_asset X`
is false; it stays false while any open position for X remains, whatever
its token id; and it is true for every asset with no open position. -/
theorem one_position_per_asset :
    (∀ (s : Bot.TradingState) (sig : ArbSignal) (d : String) (i : ℕ) (now : ℚ),
      (s.record_trade sig d i now).can_trade_asset sig.asset = false) ∧
    (∀ (s : Bot.TradingState) (a : CryptoAsset),
      (∀ p ∈ s.open_positions, p.asset ≠ a) → s.can_trade_asset a = true) ∧
    (∀ (s : Bot.TradingState) (a : CryptoAsset) (p : Bot.OpenPosition),
      p ∈ s.open_positions → p.asset = a → s.can_trade_asset a = false) := by
  refine ⟨?_, ?_, ?_⟩
  · intro s sig d i now
    simp [Bot.TradingState.can_trade_asset, Bot.TradingState.record_trade]
  · intro s a h
    simp only [Bot.TradingState.can_trade_asset, Bool.not_eq_true',
      List.any_eq_false, decide_eq_true_eq]
    intro p hp
    exact h p hp
  · intro s a p hp hpa
    simp only [Bot.TradingState.can_trade_asset, Bool.not_eq_false',
      List.any_eq_true, decide_eq_true_eq]
    exact ⟨p, hp, hpa⟩

/-- C9 witness: with no open positions every asset can be traded. -/
theorem one_position_per_asset_witness :
    Bot.TradingState.can_trade_asset ⟨none, 30, 0, 0, []⟩ CryptoAsset.BTC = true :=
  one_position_per_asset.2.1 ⟨none, 30, 0, 0, []⟩ CryptoAsset.BTC (by simp)

/-- C10: in `check_all`, an enabled orderbook or volume filter whose
input is absent produces a not-evaluated (`none`) result, and such a
result never blocks `all_passed`: if the momentum and time filters pass
(or are disabled) the whole chain passes with the orderbook and volume
filters enabled but never actually checked. -/
theorem filters_missing_data_not_evaluated (cfg : Filters.StrategyConfig)
    (ms c : ℚ) (acc dm : Bool) (t : ℤ) (b : Bool)
    (hob : cfg.enable_orderbook = true) (hv : cfg.enable_volume = true)
    (hm : cfg.enable_momentum = true →
      (Filters.momentumFilterCheck cfg.momentum ms c acc dm).passed = true)
    (ht : cfg.enable_time = true →
      (Filters.timeFilterCheck cfg.time t).passed = true) :
    (Filters.check_all cfg ms c acc dm none none t b).orderbook = none ∧
    (Filters.check_all cfg ms c acc dm none none t b).volume = none ∧
    (Filters.check_all cfg ms c acc dm none none t b).all_passed = true := by
  refine ⟨by simp [Filters.check_all], by simp [Filters.check_all], ?_⟩
  unfold Filters.FilterResults.all_passed Filters.check_all
  rcases hcm : cfg.enable_momentum with _ | _ <;>
    rcases hct : cfg.enable_time with _ | _ <;>
      simp_all

/-- C10 witness: with all four filters enabled, passing momentum inputs
and a weekday timestamp inside trading hours, the chain passes while the
orderbook and volume inputs are absent. -/
theorem filters_missing_data_witness :
    (Filters.check_all exampleStrategyConfig 0.5 0.9 true true none none
      1704223800 true).all_passed = true :=
  (filters_missing_data_not_evaluated exampleStrategyConfig 0.5 0.9 true true
    1704223800 true rfl rfl
    (fun _ => by norm_num [Filters.momentumFilterCheck, exampleStrategyConfig,
      Filters.FilterResult.passed,
      show |(1/2 : ℚ)| = 1/2 from abs_of_nonneg (by norm_num)])
    (fun _ => by decide)).2.2

end Polyrust
